import Mathlib

/-
Shallow embedding of `src/mymcp.py` (gmjain/workshop-mcp-server), an MCP
server exposing weather and stock tools plus two prompt templates.

Modelling conventions:
- JSON documents are modelled by `JVal`.  Numeric payload values pass
  through the tools untouched (no arithmetic is ever performed on them),
  so JSON numbers are carried as integers; this loses nothing any claim
  depends on.
- Each tool is a Lean function of its declared parameters together with
  an `upstream` argument of type `Except String _`: `Except.ok` stands
  for a 2xx HTTP response whose body decoded as JSON (resp. a successful
  library call), `Except.error e` stands for any raised exception whose
  `str(e)` is `e` (transport error, non-2xx via raise_for_status, JSON
  decode failure, provider lookup error).  The Python `try/except`
  around the body becomes a `match` on this argument.
- Python's `float` latitude/longitude parameters only ever flow into the
  request URL, never into any result examined by a claim; they are
  carried as `Int` so the embedding stays executable.
- `dict.get(k, default)` becomes `dictGet`, `"k" in d` becomes
  `(dictFind d k).isSome`, over association lists.
-/

/-- JSON values, as produced by `response.json()` / `yfinance` and
consumed by `json.dumps`. -/
inductive JVal where
  | jstr : String → JVal
  | jnum : Int → JVal
  | jbool : Bool → JVal
  | jnull : JVal
  | jarr : List JVal → JVal
  | jobj : List (String × JVal) → JVal

/-- Python `d.get(k)` as an `Option`: first binding of key `k` in the
association list (a Python dict has unique keys, so "first" is exact). -/
def dictFind (d : List (String × JVal)) (k : String) : Option JVal :=
  (d.find? (fun p => p.1 == k)).map (fun p => p.2)

/-- Python `d.get(k, default)`. -/
def dictGet (d : List (String × JVal)) (k : String) (dflt : JVal) : JVal :=
  match dictFind d k with
  | some v => v
  | none => dflt

/-- Serialization of a `JVal`, standing in for Python's
`json.dumps(..., indent=2)`.  Claims never inspect the concrete
serialized text of a success payload, only (a) which structured document
is serialized and (b) that the result is distinguishable from the error
strings; whitespace/indent fidelity is therefore not modelled. -/
def jsonSerialize : JVal → String
  | JVal.jstr s => "\"" ++ s ++ "\""
  | JVal.jnum n => toString n
  | JVal.jbool b => if b then "true" else "false"
  | JVal.jnull => "null"
  | JVal.jarr l =>
      "[" ++ String.intercalate ", " (l.attach.map (fun x => jsonSerialize x.1)) ++ "]"
  | JVal.jobj l =>
      "\x7b" ++ String.intercalate ", "
        (l.attach.map (fun p => "\"" ++ p.1.1 ++ "\": " ++ jsonSerialize p.1.2)) ++ "\x7d"
decreasing_by
  all_goals simp_wf
  · have h1 := List.sizeOf_lt_of_mem x.2
    omega
  · have h1 := List.sizeOf_lt_of_mem p.2
    have h2 : sizeOf p.1.2 < sizeOf p.1 := by
      rcases p with ⟨⟨a, b⟩, hp⟩
      simp
    omega

/-- Embedding of tool `get_weather` (mymcp.py lines 11-31).  On a
successful upstream call the body is re-serialized verbatim; on any
exception the formatted error string is returned. -/
def get_weather (latitude longitude : Int) (upstream : Except String JVal) : String :=
  match latitude, longitude, upstream with
  | _, _, Except.ok weather_data => jsonSerialize weather_data
  | _, _, Except.error e => "Error fetching weather data: " ++ e

/-- The `forecast_days` value `get_weather_forecast` (lines 35-58) puts
into its upstream request URL: `if days > 16: days = 16`, no other
adjustment. -/
def forecastDaysSent (days : Int) : Int :=
  if days > 16 then 16 else days

/-- Embedding of tool `get_weather_forecast` (lines 35-58): clamp `days`,
issue the upstream call (the response may depend on the `forecast_days`
value actually sent, hence `upstream` is a function of it), pass the
body through or format the error. -/
def get_weather_forecast (latitude longitude : Int) (days : Int)
    (upstream : Int → Except String JVal) : String :=
  match latitude, longitude, upstream (forecastDaysSent days) with
  | _, _, Except.ok forecast_data => jsonSerialize forecast_data
  | _, _, Except.error e => "Error fetching weather forecast: " ++ e

/-- Embedding of tool `get_location_coordinates` (lines 62-80):
pass-through of the geocoding response body, or the formatted error. -/
def get_location_coordinates (location_name : String)
    (upstream : Except String JVal) : String :=
  match location_name, upstream with
  | _, Except.ok location_data => jsonSerialize location_data
  | _, Except.error e => "Error fetching location data: " ++ e

/-- The `data` dict built by `get_stock_price` (lines 101-115) from the
caller's `symbol` and the provider's `ticker.info` mapping. -/
def get_stock_price_data (symbol : String) (info : List (String × JVal)) :
    List (String × JVal) :=
  [("symbol", JVal.jstr symbol),
   ("name", dictGet info "shortName" (JVal.jstr "N/A")),
   ("price", dictGet info "currentPrice" (dictGet info "regularMarketPrice" (JVal.jstr "N/A"))),
   ("currency", dictGet info "currency" (JVal.jstr "USD")),
   ("day_high", dictGet info "dayHigh" (JVal.jstr "N/A")),
   ("day_low", dictGet info "dayLow" (JVal.jstr "N/A")),
   ("52_week_high", dictGet info "fiftyTwoWeekHigh" (JVal.jstr "N/A")),
   ("52_week_low", dictGet info "fiftyTwoWeekLow" (JVal.jstr "N/A")),
   ("market_cap", dictGet info "marketCap" (JVal.jstr "N/A")),
   ("volume", dictGet info "volume" (JVal.jstr "N/A")),
   ("average_volume", dictGet info "averageVolume" (JVal.jstr "N/A")),
   ("pe_ratio", dictGet info "trailingPE" (JVal.jstr "N/A")),
   ("dividend_yield", dictGet info "dividendYield" (JVal.jstr "N/A"))]

/-- Embedding of tool `get_stock_price` (lines 86-119): on success the
selected fields are serialized; on any exception the formatted error
string embeds the symbol. -/
def get_stock_price (symbol : String) (upstream : Except String (List (String × JVal))) :
    String :=
  match upstream with
  | Except.ok info => jsonSerialize (JVal.jobj (get_stock_price_data symbol info))
  | Except.error e => "Error fetching stock data for " ++ symbol ++ ": " ++ e

/-- `valid_periods` from `get_stock_history` (line 134). -/
def valid_periods : List String :=
  ["1d", "5d", "1mo", "3mo", "6mo", "1y", "2y", "5y", "max"]

/-- The validation message `get_stock_history` returns for an invalid
period (line 137). -/
def invalidPeriodMsg (period : String) : String :=
  "Invalid period: " ++ period ++ ". Valid options are: " ++
    String.intercalate ", " valid_periods

/-- A calendar date as carried by a pandas `DatetimeIndex` entry; only
the fields `strftime('%Y-%m-%d')` renders. -/
structure HDate where
  year : Nat
  month : Nat
  day : Nat
deriving DecidableEq

/-- Chronological order on dates. -/
def HDate.chronLt (a b : HDate) : Prop :=
  a.year < b.year ∨ (a.year = b.year ∧
    (a.month < b.month ∨ (a.month = b.month ∧ a.day < b.day)))

instance (a b : HDate) : Decidable (HDate.chronLt a b) := by
  unfold HDate.chronLt
  infer_instance

/-- One row of the provider's history DataFrame, as consumed by the loop
in `get_stock_history` (lines 145-153). -/
structure HistRow where
  date : HDate
  openv : JVal
  high : JVal
  low : JVal
  close : JVal
  volume : JVal

/-- Decimal digit character (`0`-`9`); the embedding never calls it with
an argument above 9. -/
def digitCh (n : Nat) : Char :=
  match n with
  | 0 => '0' | 1 => '1' | 2 => '2' | 3 => '3' | 4 => '4'
  | 5 => '5' | 6 => '6' | 7 => '7' | 8 => '8' | _ => '9'

/-- Two-digit zero-padded decimal rendering, as `strftime('%m')` /
`strftime('%d')` produce for in-range values. -/
def pad2 (n : Nat) : List Char :=
  [digitCh ((n / 10) % 10), digitCh (n % 10)]

/-- Four-digit zero-padded decimal rendering, as `strftime('%Y')`
produces for years below 10000. -/
def pad4 (n : Nat) : List Char :=
  [digitCh ((n / 1000) % 10), digitCh ((n / 100) % 10),
   digitCh ((n / 10) % 10), digitCh (n % 10)]

/-- `date.strftime('%Y-%m-%d')` (line 147). -/
def strftimeYMD (d : HDate) : String :=
  ⟨pad4 d.year ++ '-' :: (pad2 d.month ++ '-' :: pad2 d.day)⟩

/-- The dict appended for one history row (lines 146-153). -/
def histPoint (r : HistRow) : List (String × JVal) :=
  [("date", JVal.jstr (strftimeYMD r.date)),
   ("open", r.openv),
   ("high", r.high),
   ("low", r.low),
   ("close", r.close),
   ("volume", r.volume)]

/-- The `data` list `get_stock_history` accumulates over the DataFrame
rows, in the provider's iteration order. -/
def historyPoints (rows : List HistRow) : List (List (String × JVal)) :=
  rows.map histPoint

/-- Embedding of tool `get_stock_history` (lines 122-157): enum check
first (returning before any upstream call), then the upstream fetch,
row projection and serialization, or the formatted error. -/
def get_stock_history (symbol period : String)
    (upstream : Except String (List HistRow)) : String :=
  if valid_periods.contains period = false then
    invalidPeriodMsg period
  else
    match upstream with
    | Except.ok history =>
        jsonSerialize (JVal.jarr ((historyPoints history).map JVal.jobj))
    | Except.error e =>
        "Error fetching historical stock data for " ++ symbol ++ ": " ++ e

/-- The match dict built for one upstream quote entry that passed the
`"symbol" in quote` test (lines 189-194). -/
def searchMatch (q : List (String × JVal)) : List (String × JVal) :=
  [("symbol", dictGet q "symbol" (JVal.jstr "")),
   ("name", dictGet q "longname" (dictGet q "shortname" (JVal.jstr ""))),
   ("exchange", dictGet q "exchange" (JVal.jstr "")),
   ("type", dictGet q "quoteType" (JVal.jstr ""))]

/-- The `results` list built by `search_stocks` (lines 186-194) from the
upstream payload's `quotes` list: entries lacking a `symbol` key are
skipped, the rest are projected by `searchMatch`. -/
def search_stocks_results (quotes : List (List (String × JVal))) :
    List (List (String × JVal)) :=
  (quotes.filter (fun q => (dictFind q "symbol").isSome)).map searchMatch

/-- Embedding of tool `search_stocks` (lines 160-198).  A successful
upstream call carries the decoded `quotes` list (each entry a JSON
object); the extraction `search_results.get("quotes", [])` is part of
the abstracted decode.  On any exception the formatted error string is
returned. -/
def search_stocks (query : String)
    (upstream : Except String (List (List (String × JVal)))) : String :=
  match query, upstream with
  | _, Except.ok quotes =>
      jsonSerialize (JVal.jarr ((search_stocks_results quotes).map JVal.jobj))
  | _, Except.error e => "Error searching for stocks: " ++ e

/-- Embedding of prompt `weather-report` (lines 203-234): an exact
transcription of the f-string template, a pure function of `location`.
(Braces and apostrophes are written via character escapes.) -/
def weather_report_prompt (location : String) : String :=
  "\n    Generate a detailed weather report for " ++ location ++ ".\n\n    First, I need to get the coordinates for this location. Only city name should be provided:\n    \x7b\x7bget_location_coordinates(location_name=\"" ++ location ++ "\")\x7d\x7d\n\n    Using those coordinates, I\x27ll fetch the current weather:\n    \x7b\x7bget_weather(latitude=LATITUDE, longitude=LONGITUDE)\x7d\x7d\n\n    And also get a 7-day forecast:\n    \x7b\x7bget_weather_forecast(latitude=LATITUDE, longitude=LONGITUDE, days=7)\x7d\x7d\n\n    Please provide a comprehensive weather report for " ++ location ++ " including:\n\n    1. Current conditions (temperature, humidity, wind, etc.)\n    2. Weather forecast for the next 7 days\n    3. Any notable weather patterns or extreme conditions to be aware of\n\n    Make the report informative but easy to understand.\n    The expected output is tabular.\n    "

/-- Embedding of prompt `stock-analysis` (lines 237-269), transcribed
the same way. -/
def stock_analysis_prompt (company : String) : String :=
  "\n    Perform a detailed analysis of " ++ company ++ "\x27s stock.\n\n    First, let me search for the correct stock symbol:\n    \x7b\x7bsearch_stocks(query=\"" ++ company ++ "\")\x7d\x7d\n\n    Now, I\x27ll get the current stock price and information:\n    \x7b\x7bget_stock_price(symbol=\"SYMBOL\")\x7d\x7d\n\n    Let me also get the historical data for the past 3 months:\n    \x7b\x7bget_stock_history(symbol=\"SYMBOL\", period=\"3mo\")\x7d\x7d\n\n    Based on this data, please provide:\n\n    1. Current stock performance summary\n    2. Key price points (current, daily range, 52-week range)\n    3. Recent price trends over the past 3 months\n    4. Basic analysis of the company\x27s financial health based on available metrics\n\n    Make your analysis informative for someone interested in this stock but not necessarily an expert in finance.\n    The expected output is tabular.\n    "

/-- Substring test used to state textual claims: does `pat` occur
contiguously in `s`? -/
def charsHasSub (pat : List Char) : List Char → Bool
  | [] => pat.isEmpty
  | c :: rest => (pat.isPrefixOf (c :: rest)) || charsHasSub pat rest

/-- Substring test on strings. -/
def strHasSub (s pat : String) : Bool :=
  charsHasSub pat.data s.data

/-- Lexicographic strict order on character lists, used to state
chronological order of the rendered `YYYY-MM-DD` date strings. -/
def charsLt : List Char → List Char → Bool
  | [], [] => false
  | [], _ :: _ => true
  | _ :: _, [] => false
  | a :: as, b :: bs => (decide (a < b)) || ((a == b) && charsLt as bs)

/-- Strictly-ascending test on a list of strings under `charsLt`. -/
def strictAscBool : List String → Bool
  | [] => true
  | [_] => true
  | a :: b :: rest => charsLt a.data b.data && strictAscBool (b :: rest)

/-- The `date` field of an emitted history point. -/
def pointDateStr (p : List (String × JVal)) : String :=
  match dictFind p "date" with
  | some (JVal.jstr s) => s
  | _ => ""

/-- The sequence of `date` strings of the emitted history points, in
emission order. -/
def historyDateStrs (rows : List HistRow) : List String :=
  (historyPoints rows).map pointDateStr

theorem dictGet_none {info : List (String × JVal)} {k : String} {d : JVal}
    (h : dictFind info k = none) : dictGet info k d = d := by
  unfold dictGet
  rw [h]

theorem dictGet_some {info : List (String × JVal)} {k : String} {v d : JVal}
    (h : dictFind info k = some v) : dictGet info k d = v := by
  unfold dictGet
  rw [h]

theorem ne_of_head_char {s t : String} {c1 c2 : Char} {l1 l2 : List Char}
    (h1 : s.data = c1 :: l1) (h2 : t.data = c2 :: l2) (hc : c1 ≠ c2) :
    s ≠ t := by
  intro he
  rw [he] at h1
  rw [h2] at h1
  injection h1 with hx _
  exact hc hx.symm

theorem jsonSerialize_jobj (l : List (String × JVal)) :
    jsonSerialize (JVal.jobj l) = "\x7b" ++ String.intercalate ", "
      (l.attach.map (fun p => "\"" ++ p.1.1 ++ "\": " ++ jsonSerialize p.1.2)) ++ "\x7d" := by
  simp only [jsonSerialize]

/-- Claim C2: for `days > 16` the upstream request carries
`forecast_days = 16`; for `1 ≤ days ≤ 16` the input passes through
unchanged, and below 1 no clamp applies either; the tool consults its
upstream at exactly the clamped value. -/
theorem forecast_days_clamp_spec (latitude longitude days : Int)
    (upstream : Int → Except String JVal) :
    (days > 16 → forecastDaysSent days = 16) ∧
    (1 ≤ days ∧ days ≤ 16 → forecastDaysSent days = days) ∧
    (days < 1 → forecastDaysSent days = days) ∧
    get_weather_forecast latitude longitude days upstream
      = get_weather_forecast latitude longitude (forecastDaysSent days) upstream := by
  refine ⟨fun h => if_pos h, fun h => if_neg (by omega), fun h => if_neg (by omega), ?_⟩
  have hid : forecastDaysSent (forecastDaysSent days) = forecastDaysSent days := by
    unfold forecastDaysSent
    by_cases h : days > 16
    · rw [if_pos h]
      norm_num
    · rw [if_neg h, if_neg h]
  unfold get_weather_forecast
  rw [hid]

/-- Witness for forecast_days_clamp_spec at days = 20, 7 and 0. -/
theorem forecast_days_clamp_spec_witness :
    forecastDaysSent 20 = 16 ∧ forecastDaysSent 7 = 7 ∧ forecastDaysSent 0 = 0 :=
  ⟨(forecast_days_clamp_spec 48 2 20 (fun _ => Except.error "x")).1 (by norm_num),
   (forecast_days_clamp_spec 48 2 7 (fun _ => Except.error "x")).2.1 ⟨by norm_num, by norm_num⟩,
   (forecast_days_clamp_spec 48 2 0 (fun _ => Except.error "x")).2.2.1 (by norm_num)⟩

/-- Claim C10: a successful get_stock_price payload carries a `symbol`
field equal to the caller's input verbatim, for every provider info
mapping (the theorem quantifies over all of them, including the empty
one and ones that themselves bind a `symbol` key — the echoed value
never comes from the payload). -/
theorem stock_price_echoes_symbol (symbol : String) (info : List (String × JVal)) :
    dictFind (get_stock_price_data symbol info) "symbol" = some (JVal.jstr symbol) := rfl

/-- Claim C5: the `price` field uses `currentPrice` when present and
falls back to `regularMarketPrice` when `currentPrice` is omitted. -/
theorem price_fallback_regular_market (symbol : String)
    (info : List (String × JVal)) (v : JVal) :
    (dictFind info "currentPrice" = none →
      dictFind info "regularMarketPrice" = some v →
      dictFind (get_stock_price_data symbol info) "price" = some v) ∧
    (dictFind info "currentPrice" = some v →
      dictFind (get_stock_price_data symbol info) "price" = some v) := by
  have hp : dictFind (get_stock_price_data symbol info) "price"
      = some (dictGet info "currentPrice"
          (dictGet info "regularMarketPrice" (JVal.jstr "N/A"))) := rfl
  constructor
  · intro h1 h2
    rw [hp, dictGet_none h1, dictGet_some h2]
  · intro h1
    rw [hp, dictGet_some h1]

/-- Witness for price_fallback_regular_market: both branches at concrete
info mappings. -/
theorem price_fallback_regular_market_witness :
    (dictFind [("regularMarketPrice", JVal.jnum 42)] "currentPrice" = none ∧
     dictFind (get_stock_price_data "AAPL" [("regularMarketPrice", JVal.jnum 42)]) "price"
       = some (JVal.jnum 42)) ∧
    (dictFind [("currentPrice", JVal.jnum 7)] "currentPrice" = some (JVal.jnum 7) ∧
     dictFind (get_stock_price_data "MSFT" [("currentPrice", JVal.jnum 7)]) "price"
       = some (JVal.jnum 7)) :=
  ⟨⟨rfl, (price_fallback_regular_market "AAPL" _ _).1 rfl rfl⟩,
   ⟨rfl, (price_fallback_regular_market "MSFT" _ _).2 rfl⟩⟩

/-- Claim C4 counterexample: when the provider omits `currency`, the
built quote's currency field is `"USD"`, not the `"N/A"` "not
available" sentinel the claim asserts for every non-price field. -/
theorem currency_default_not_na_cx :
    dictFind (get_stock_price_data "AAPL" []) "currency" = some (JVal.jstr "USD") ∧
    JVal.jstr "USD" ≠ JVal.jstr "N/A" :=
  ⟨rfl, by
    intro h
    injection h with h1
    exact absurd h1 (by decide)⟩

/-- Claim C4 as amended: every field other than price and currency falls
back to the `"N/A"` sentinel when its source field is missing; currency
falls back to the default `"USD"`; and the success branch is taken for
every info mapping regardless of which fields are missing (the
operation never fails for a missing field). -/
theorem missing_fields_default_amended (symbol : String) (info : List (String × JVal)) :
    (dictFind info "shortName" = none →
      dictFind (get_stock_price_data symbol info) "name" = some (JVal.jstr "N/A")) ∧
    (dictFind info "dayHigh" = none →
      dictFind (get_stock_price_data symbol info) "day_high" = some (JVal.jstr "N/A")) ∧
    (dictFind info "dayLow" = none →
      dictFind (get_stock_price_data symbol info) "day_low" = some (JVal.jstr "N/A")) ∧
    (dictFind info "fiftyTwoWeekHigh" = none →
      dictFind (get_stock_price_data symbol info) "52_week_high" = some (JVal.jstr "N/A")) ∧
    (dictFind info "fiftyTwoWeekLow" = none →
      dictFind (get_stock_price_data symbol info) "52_week_low" = some (JVal.jstr "N/A")) ∧
    (dictFind info "marketCap" = none →
      dictFind (get_stock_price_data symbol info) "market_cap" = some (JVal.jstr "N/A")) ∧
    (dictFind info "volume" = none →
      dictFind (get_stock_price_data symbol info) "volume" = some (JVal.jstr "N/A")) ∧
    (dictFind info "averageVolume" = none →
      dictFind (get_stock_price_data symbol info) "average_volume" = some (JVal.jstr "N/A")) ∧
    (dictFind info "trailingPE" = none →
      dictFind (get_stock_price_data symbol info) "pe_ratio" = some (JVal.jstr "N/A")) ∧
    (dictFind info "dividendYield" = none →
      dictFind (get_stock_price_data symbol info) "dividend_yield" = some (JVal.jstr "N/A")) ∧
    (dictFind info "currency" = none →
      dictFind (get_stock_price_data symbol info) "currency" = some (JVal.jstr "USD")) ∧
    get_stock_price symbol (Except.ok info)
      = jsonSerialize (JVal.jobj (get_stock_price_data symbol info)) := by
  refine ⟨?_, ?_, ?_, ?_, ?_, ?_, ?_, ?_, ?_, ?_, ?_, rfl⟩ <;>
    exact fun h => congrArg some (dictGet_none h)

/-- Witness for missing_fields_default_amended at the empty info
mapping (every source field missing). -/
theorem missing_fields_default_amended_witness :
    dictFind (get_stock_price_data "AAPL" ([] : List (String × JVal))) "name"
      = some (JVal.jstr "N/A") ∧
    dictFind (get_stock_price_data "AAPL" ([] : List (String × JVal))) "dividend_yield"
      = some (JVal.jstr "N/A") ∧
    dictFind (get_stock_price_data "AAPL" ([] : List (String × JVal))) "currency"
      = some (JVal.jstr "USD") ∧
    get_stock_price "AAPL" (Except.ok [])
      = jsonSerialize (JVal.jobj (get_stock_price_data "AAPL" [])) :=
  ⟨(missing_fields_default_amended "AAPL" []).1 rfl,
   (missing_fields_default_amended "AAPL" []).2.2.2.2.2.2.2.2.2.1 rfl,
   (missing_fields_default_amended "AAPL" []).2.2.2.2.2.2.2.2.2.2.1 rfl,
   (missing_fields_default_amended "AAPL" []).2.2.2.2.2.2.2.2.2.2.2⟩

/-- Claim C6: every entry of the search_stocks success output carries a
`symbol` key, and an upstream quote entry lacking one is dropped. -/
theorem search_results_have_symbol (quotes : List (List (String × JVal))) :
    (∀ m ∈ search_stocks_results quotes, (dictFind m "symbol").isSome = true) ∧
    (∀ q qs, dictFind q "symbol" = none →
      search_stocks_results (q :: qs) = search_stocks_results qs) := by
  constructor
  · intro m hm
    unfold search_stocks_results at hm
    rcases List.mem_map.mp hm with ⟨q, hq, rfl⟩
    rfl
  · intro q qs h
    unfold search_stocks_results
    rw [List.filter_cons]
    simp [h]

/-- Witness for search_results_have_symbol: a concrete payload with one
symbol-carrying entry (kept) and one symbol-less entry (dropped). -/
theorem search_results_have_symbol_witness :
    (dictFind (searchMatch [("symbol", JVal.jstr "AAPL")]) "symbol").isSome = true ∧
    (dictFind [("shortname", JVal.jstr "NoSym")] "symbol" = none ∧
     search_stocks_results
         ([("shortname", JVal.jstr "NoSym")] :: [[("symbol", JVal.jstr "AAPL")]])
       = search_stocks_results [[("symbol", JVal.jstr "AAPL")]]) :=
  ⟨(search_results_have_symbol [[("symbol", JVal.jstr "AAPL")]]).1
      (searchMatch [("symbol", JVal.jstr "AAPL")])
      (by
        show searchMatch _ ∈ [searchMatch _]
        exact List.mem_singleton.mpr rfl),
   ⟨rfl, (search_results_have_symbol [[("symbol", JVal.jstr "AAPL")]]).2
      [("shortname", JVal.jstr "NoSym")] [[("symbol", JVal.jstr "AAPL")]] rfl⟩⟩

/-- Claim C7: a decoded 2xx geocoding response whose candidate list is
empty yields the pass-through success payload (the serialized document,
empty list included), never a failure string. -/
theorem geocode_empty_success (location_name : String)
    (d : List (String × JVal)) (_hres : dictFind d "results" = some (JVal.jarr [])) :
    get_location_coordinates location_name (Except.ok (JVal.jobj d))
      = jsonSerialize (JVal.jobj d) ∧
    ∀ e : String,
      get_location_coordinates location_name (Except.ok (JVal.jobj d))
        ≠ "Error fetching location data: " ++ e := by
  refine ⟨rfl, ?_⟩
  intro e
  have h1 : ∃ t, (jsonSerialize (JVal.jobj d)).data = '\x7b' :: t := by
    rw [jsonSerialize_jobj, String.data_append, String.data_append]
    exact ⟨_, rfl⟩
  have h2 : ∃ t, ("Error fetching location data: " ++ e).data = 'E' :: t := by
    rw [String.data_append]
    exact ⟨_, rfl⟩
  rcases h1 with ⟨t1, h1⟩
  rcases h2 with ⟨t2, h2⟩
  show jsonSerialize (JVal.jobj d) ≠ _
  exact ne_of_head_char h1 h2 (by decide)

/-- Witness for geocode_empty_success at a concrete zero-match
document. -/
theorem geocode_empty_success_witness :
    dictFind [("results", JVal.jarr [])] "results" = some (JVal.jarr []) ∧
    get_location_coordinates "Atlantis" (Except.ok (JVal.jobj [("results", JVal.jarr [])]))
      = jsonSerialize (JVal.jobj [("results", JVal.jarr [])]) ∧
    get_location_coordinates "Atlantis" (Except.ok (JVal.jobj [("results", JVal.jarr [])]))
      ≠ "Error fetching location data: " ++ "timeout" :=
  ⟨rfl,
   (geocode_empty_success "Atlantis" [("results", JVal.jarr [])] rfl).1,
   (geocode_empty_success "Atlantis" [("results", JVal.jarr [])] rfl).2 "timeout"⟩

/-- Claim C3: an invalid period makes get_stock_history return the
descriptive validation message, independent of anything upstream (no
upstream call), and that message differs from every provider-failure
message. -/
theorem invalid_period_short_circuit (symbol period : String)
    (h : valid_periods.contains period = false)
    (u u' : Except String (List HistRow)) :
    get_stock_history symbol period u = invalidPeriodMsg period ∧
    get_stock_history symbol period u = get_stock_history symbol period u' ∧
    ∀ e : String, invalidPeriodMsg period
      ≠ "Error fetching historical stock data for " ++ symbol ++ ": " ++ e := by
  have hmsg : ∀ v : Except String (List HistRow),
      get_stock_history symbol period v = invalidPeriodMsg period := by
    intro v
    unfold get_stock_history
    rw [if_pos h]
  refine ⟨hmsg u, (hmsg u).trans (hmsg u').symm, ?_⟩
  intro e
  have h1 : ∃ t, (invalidPeriodMsg period).data = 'I' :: t := by
    unfold invalidPeriodMsg
    rw [String.data_append, String.data_append, String.data_append]
    exact ⟨_, rfl⟩
  have h2 : ∃ t,
      ("Error fetching historical stock data for " ++ symbol ++ ": " ++ e).data
        = 'E' :: t := by
    rw [String.data_append, String.data_append, String.data_append]
    exact ⟨_, rfl⟩
  rcases h1 with ⟨t1, h1⟩
  rcases h2 with ⟨t2, h2⟩
  exact ne_of_head_char h1 h2 (by decide)

/-- Witness for invalid_period_short_circuit at period "2w". -/
theorem invalid_period_short_circuit_witness :
    valid_periods.contains "2w" = false ∧
    get_stock_history "AAPL" "2w" (Except.error "boom") = invalidPeriodMsg "2w" ∧
    invalidPeriodMsg "2w"
      ≠ "Error fetching historical stock data for " ++ "AAPL" ++ ": " ++ "boom" :=
  ⟨by decide,
   (invalid_period_short_circuit "AAPL" "2w" (by decide)
      (Except.error "boom") (Except.ok [])).1,
   (invalid_period_short_circuit "AAPL" "2w" (by decide)
      (Except.error "boom") (Except.ok [])).2.2 "boom"⟩

/-- Claim C1 counterexample: get_weather's failure message carries no
" for <subject> " framing at all (no "for" anywhere), and
search_stocks's failure message does not contain its query — so not
every tool's failure message names its subject. -/
theorem failure_messages_lack_subject_cx :
    get_weather 48 2 (Except.error "timeout")
      = "Error fetching weather data: timeout" ∧
    strHasSub (get_weather 48 2 (Except.error "timeout")) "for" = false ∧
    search_stocks "Apple" (Except.error "timeout")
      = "Error searching for stocks: timeout" ∧
    strHasSub (search_stocks "Apple" (Except.error "timeout")) "Apple" = false := by
  refine ⟨rfl, ?_, rfl, ?_⟩ <;> decide

/-- Claim C1 as amended: every tool's failure message is the fixed
prefix "Error <gerund phrase>: " followed by the underlying error text,
but only the two stock-fetch tools embed their subject (the symbol) in
the phrase; the weather, geocoding and search tools use a constant
phrase without their subject. -/
theorem failure_message_framing_amended (e symbol period location_name query : String)
    (latitude longitude days : Int)
    (hp : valid_periods.contains period = true) :
    get_weather latitude longitude (Except.error e)
      = "Error fetching weather data: " ++ e ∧
    get_weather_forecast latitude longitude days (fun _ => Except.error e)
      = "Error fetching weather forecast: " ++ e ∧
    get_location_coordinates location_name (Except.error e)
      = "Error fetching location data: " ++ e ∧
    get_stock_price symbol (Except.error e)
      = "Error fetching stock data for " ++ symbol ++ ": " ++ e ∧
    get_stock_history symbol period (Except.error e)
      = "Error fetching historical stock data for " ++ symbol ++ ": " ++ e ∧
    search_stocks query (Except.error e)
      = "Error searching for stocks: " ++ e := by
  refine ⟨rfl, rfl, rfl, rfl, ?_, rfl⟩
  unfold get_stock_history
  rw [if_neg (by rw [hp]; decide)]

/-- Witness for failure_message_framing_amended at concrete inputs. -/
theorem failure_message_framing_amended_witness :
    valid_periods.contains "1mo" = true ∧
    get_weather 48 2 (Except.error "boom") = "Error fetching weather data: " ++ "boom" ∧
    get_stock_history "AAPL" "1mo" (Except.error "boom")
      = "Error fetching historical stock data for " ++ "AAPL" ++ ": " ++ "boom" :=
  ⟨by decide,
   (failure_message_framing_amended "boom" "AAPL" "1mo" "Paris" "Apple" 48 2 7
      (by decide)).1,
   (failure_message_framing_amended "boom" "AAPL" "1mo" "Paris" "Apple" 48 2 7
      (by decide)).2.2.2.2.1⟩

set_option maxRecDepth 40000 in
/-- Claim C9: the weather-report prompt rendered for "Paris" contains
the literal tool-invocation substring for the geocoding step and the
literal tabular-output instruction; the rendering is by construction a
function of the single `location` parameter, with no upstream argument
at all. -/
theorem weather_report_paris_text :
    strHasSub (weather_report_prompt "Paris")
      "get_location_coordinates(location_name=\"Paris\")" = true ∧
    strHasSub (weather_report_prompt "Paris")
      "The expected output is tabular." = true := by
  constructor <;> decide

theorem digitCh_lt_iff :
    ∀ m, m < 10 → ∀ n, n < 10 → ((digitCh m < digitCh n) ↔ m < n) := by decide

theorem digitCh_eq_iff :
    ∀ m, m < 10 → ∀ n, n < 10 → ((digitCh m = digitCh n) ↔ m = n) := by decide

theorem charsLt_append {x y : List Char} (h : x.length = y.length)
    (r1 r2 : List Char) :
    (charsLt (x ++ r1) (y ++ r2) = true) ↔
      (charsLt x y = true ∨ (x = y ∧ charsLt r1 r2 = true)) := by
  induction x generalizing y with
  | nil =>
    cases y with
    | nil => simp [charsLt]
    | cons b bs => simp at h
  | cons a as ih =>
    cases y with
    | nil => simp at h
    | cons b bs =>
      simp only [List.length_cons] at h
      have h2 : as.length = bs.length := by omega
      have hstep : charsLt ((a :: as) ++ r1) ((b :: bs) ++ r2)
          = (decide (a < b) || ((a == b) && charsLt (as ++ r1) (bs ++ r2))) := rfl
      have hstep2 : charsLt (a :: as) (b :: bs)
          = (decide (a < b) || ((a == b) && charsLt as bs)) := rfl
      rw [hstep, hstep2]
      simp only [Bool.or_eq_true, Bool.and_eq_true, decide_eq_true_eq, beq_iff_eq,
        ih h2, List.cons.injEq]
      tauto

theorem pad2_lt_iff {m n : Nat} (hm : m < 100) (hn : n < 100) :
    (charsLt (pad2 m) (pad2 n) = true) ↔ m < n := by
  have d1 : m / 10 % 10 < 10 := Nat.mod_lt _ (by norm_num)
  have d0 : m % 10 < 10 := Nat.mod_lt _ (by norm_num)
  have e1 : n / 10 % 10 < 10 := Nat.mod_lt _ (by norm_num)
  have e0 : n % 10 < 10 := Nat.mod_lt _ (by norm_num)
  simp only [pad2, charsLt, Bool.or_eq_true, Bool.and_eq_true, decide_eq_true_eq,
    beq_iff_eq, Bool.false_eq_true, and_false, or_false,
    digitCh_lt_iff _ d1 _ e1, digitCh_lt_iff _ d0 _ e0,
    digitCh_eq_iff _ d1 _ e1, digitCh_eq_iff _ d0 _ e0]
  omega

theorem pad2_eq_iff {m n : Nat} (hm : m < 100) (hn : n < 100) :
    pad2 m = pad2 n ↔ m = n := by
  have d1 : m / 10 % 10 < 10 := Nat.mod_lt _ (by norm_num)
  have d0 : m % 10 < 10 := Nat.mod_lt _ (by norm_num)
  have e1 : n / 10 % 10 < 10 := Nat.mod_lt _ (by norm_num)
  have e0 : n % 10 < 10 := Nat.mod_lt _ (by norm_num)
  simp only [pad2, List.cons.injEq, and_true,
    digitCh_eq_iff _ d1 _ e1, digitCh_eq_iff _ d0 _ e0]
  omega

theorem pad4_lt_iff {m n : Nat} (hm : m < 10000) (hn : n < 10000) :
    (charsLt (pad4 m) (pad4 n) = true) ↔ m < n := by
  have d3 : m / 1000 % 10 < 10 := Nat.mod_lt _ (by norm_num)
  have d2 : m / 100 % 10 < 10 := Nat.mod_lt _ (by norm_num)
  have d1 : m / 10 % 10 < 10 := Nat.mod_lt _ (by norm_num)
  have d0 : m % 10 < 10 := Nat.mod_lt _ (by norm_num)
  have e3 : n / 1000 % 10 < 10 := Nat.mod_lt _ (by norm_num)
  have e2 : n / 100 % 10 < 10 := Nat.mod_lt _ (by norm_num)
  have e1 : n / 10 % 10 < 10 := Nat.mod_lt _ (by norm_num)
  have e0 : n % 10 < 10 := Nat.mod_lt _ (by norm_num)
  simp only [pad4, charsLt, Bool.or_eq_true, Bool.and_eq_true, decide_eq_true_eq,
    beq_iff_eq, Bool.false_eq_true, and_false, or_false,
    digitCh_lt_iff _ d3 _ e3, digitCh_lt_iff _ d2 _ e2,
    digitCh_lt_iff _ d1 _ e1, digitCh_lt_iff _ d0 _ e0,
    digitCh_eq_iff _ d3 _ e3, digitCh_eq_iff _ d2 _ e2,
    digitCh_eq_iff _ d1 _ e1, digitCh_eq_iff _ d0 _ e0]
  have km : m = 1000 * (m / 1000 % 10) + 100 * (m / 100 % 10)
      + 10 * (m / 10 % 10) + m % 10 := by omega
  have kn : n = 1000 * (n / 1000 % 10) + 100 * (n / 100 % 10)
      + 10 * (n / 10 % 10) + n % 10 := by omega
  omega

theorem pad4_eq_iff {m n : Nat} (hm : m < 10000) (hn : n < 10000) :
    pad4 m = pad4 n ↔ m = n := by
  have d3 : m / 1000 % 10 < 10 := Nat.mod_lt _ (by norm_num)
  have d2 : m / 100 % 10 < 10 := Nat.mod_lt _ (by norm_num)
  have d1 : m / 10 % 10 < 10 := Nat.mod_lt _ (by norm_num)
  have d0 : m % 10 < 10 := Nat.mod_lt _ (by norm_num)
  have e3 : n / 1000 % 10 < 10 := Nat.mod_lt _ (by norm_num)
  have e2 : n / 100 % 10 < 10 := Nat.mod_lt _ (by norm_num)
  have e1 : n / 10 % 10 < 10 := Nat.mod_lt _ (by norm_num)
  have e0 : n % 10 < 10 := Nat.mod_lt _ (by norm_num)
  simp only [pad4, List.cons.injEq, and_true,
    digitCh_eq_iff _ d3 _ e3, digitCh_eq_iff _ d2 _ e2,
    digitCh_eq_iff _ d1 _ e1, digitCh_eq_iff _ d0 _ e0]
  omega

theorem strftime_lt_iff {a b : HDate}
    (ha : a.year < 10000 ∧ a.month < 100 ∧ a.day < 100)
    (hb : b.year < 10000 ∧ b.month < 100 ∧ b.day < 100) :
    (charsLt (strftimeYMD a).data (strftimeYMD b).data = true) ↔
      HDate.chronLt a b := by
  obtain ⟨ha1, ha2, ha3⟩ := ha
  obtain ⟨hb1, hb2, hb3⟩ := hb
  have hdata : ∀ d : HDate, (strftimeYMD d).data
      = pad4 d.year ++ '-' :: (pad2 d.month ++ '-' :: pad2 d.day) := fun d => rfl
  have hcons : ∀ X Y : List Char,
      (charsLt ('-' :: X) ('-' :: Y) = true) ↔ (charsLt X Y = true) := by
    intro X Y
    simp [charsLt]
  have hlen4 : (pad4 a.year).length = (pad4 b.year).length := rfl
  have hlen2 : (pad2 a.month).length = (pad2 b.month).length := rfl
  rw [hdata, hdata, charsLt_append hlen4, hcons, charsLt_append hlen2, hcons,
    pad4_lt_iff ha1 hb1, pad4_eq_iff ha1 hb1, pad2_lt_iff ha2 hb2,
    pad2_eq_iff ha2 hb2, pad2_lt_iff ha3 hb3]
  unfold HDate.chronLt
  tauto

theorem strictAsc_iff_chain (rows : List HistRow)
    (hv : ∀ r ∈ rows, r.date.year < 10000 ∧ r.date.month < 100 ∧ r.date.day < 100) :
    (strictAscBool (rows.map (fun r => strftimeYMD r.date)) = true ↔
      List.Chain' HDate.chronLt (rows.map HistRow.date)) := by
  induction rows with
  | nil => simp [strictAscBool]
  | cons r1 rest ih =>
    cases rest with
    | nil => simp [strictAscBool]
    | cons r2 rest2 =>
      have h1 := hv r1 (by simp)
      have h2 := hv r2 (by simp)
      have ih2 := ih (fun r hr => hv r (List.mem_cons_of_mem _ hr))
      simp only [List.map_cons] at ih2 ⊢
      rw [List.chain'_cons]
      have hsb : strictAscBool (strftimeYMD r1.date :: strftimeYMD r2.date ::
            rest2.map (fun r => strftimeYMD r.date))
          = (charsLt (strftimeYMD r1.date).data (strftimeYMD r2.date).data
             && strictAscBool (strftimeYMD r2.date ::
                  rest2.map (fun r => strftimeYMD r.date))) := rfl
      rw [hsb, Bool.and_eq_true, strftime_lt_iff h1 h2, ih2]

/-- Claim C8 counterexample: a provider series whose rows arrive in
descending date order is emitted exactly in that order, so the output's
date sequence is not strictly increasing for every provider series. -/
theorem history_not_sorted_cx :
    historyDateStrs
        [⟨⟨2024, 1, 2⟩, JVal.jnum 1, JVal.jnum 1, JVal.jnum 1, JVal.jnum 1, JVal.jnum 1⟩,
         ⟨⟨2024, 1, 1⟩, JVal.jnum 1, JVal.jnum 1, JVal.jnum 1, JVal.jnum 1, JVal.jnum 1⟩]
      = ["2024-01-02", "2024-01-01"] ∧
    strictAscBool (historyDateStrs
        [⟨⟨2024, 1, 2⟩, JVal.jnum 1, JVal.jnum 1, JVal.jnum 1, JVal.jnum 1, JVal.jnum 1⟩,
         ⟨⟨2024, 1, 1⟩, JVal.jnum 1, JVal.jnum 1, JVal.jnum 1, JVal.jnum 1, JVal.jnum 1⟩])
      = false := by
  constructor <;> decide

/-- Claim C8 as amended: history rows are emitted in the provider's
order with each date rendered `YYYY-MM-DD`, and the emitted date
sequence is strictly increasing (chronologically ascending) exactly
when the provider's own date sequence is — the code preserves but does
not itself establish ascending order. -/
theorem history_order_amended (rows : List HistRow)
    (hv : ∀ r ∈ rows, r.date.year < 10000 ∧ r.date.month < 100 ∧ r.date.day < 100) :
    historyDateStrs rows = rows.map (fun r => strftimeYMD r.date) ∧
    (strictAscBool (historyDateStrs rows) = true ↔
      List.Chain' HDate.chronLt (rows.map HistRow.date)) := by
  have hmap : historyDateStrs rows = rows.map (fun r => strftimeYMD r.date) := by
    unfold historyDateStrs historyPoints
    rw [List.map_map]
    rfl
  refine ⟨hmap, ?_⟩
  rw [hmap]
  exact strictAsc_iff_chain rows hv

/-- Witness for history_order_amended at a concrete ascending
two-row series. -/
theorem history_order_amended_witness :
    (∀ r ∈
        ([⟨⟨2024, 1, 1⟩, JVal.jnum 1, JVal.jnum 1, JVal.jnum 1, JVal.jnum 1, JVal.jnum 1⟩,
          ⟨⟨2024, 1, 2⟩, JVal.jnum 1, JVal.jnum 1, JVal.jnum 1, JVal.jnum 1, JVal.jnum 1⟩] :
          List HistRow),
      r.date.year < 10000 ∧ r.date.month < 100 ∧ r.date.day < 100) ∧
    historyDateStrs
        [⟨⟨2024, 1, 1⟩, JVal.jnum 1, JVal.jnum 1, JVal.jnum 1, JVal.jnum 1, JVal.jnum 1⟩,
         ⟨⟨2024, 1, 2⟩, JVal.jnum 1, JVal.jnum 1, JVal.jnum 1, JVal.jnum 1, JVal.jnum 1⟩]
      = [strftimeYMD ⟨2024, 1, 1⟩, strftimeYMD ⟨2024, 1, 2⟩] ∧
    (strictAscBool (historyDateStrs
        [⟨⟨2024, 1, 1⟩, JVal.jnum 1, JVal.jnum 1, JVal.jnum 1, JVal.jnum 1, JVal.jnum 1⟩,
         ⟨⟨2024, 1, 2⟩, JVal.jnum 1, JVal.jnum 1, JVal.jnum 1, JVal.jnum 1, JVal.jnum 1⟩])
        = true ↔
      List.Chain' HDate.chronLt [(⟨2024, 1, 1⟩ : HDate), ⟨2024, 1, 2⟩]) :=
  ⟨by decide,
   (history_order_amended _ (by decide)).1,
   (history_order_amended _ (by decide)).2⟩
